import Mathlib

/-!
Shallow embedding of the intelligent traffic-signal scheduler from
`src/detector/traffic_controller.py` (class `TrafficController`).

Modelling conventions:
* Python floats and `time.time()` timestamps are modelled as exact rationals
  (`ℚ`); Python ints as `Int`; per-direction dictionaries as total functions
  `Direction → α`.
* Side effects on the LED collaborator (`set_state`, `set_direction_state`,
  `set_all_red`) and `time.sleep` calls are reified as a command trace
  (`List Cmd`); `threading.Timer` one-shot events are reified as a list of
  scheduled `(delay, TimerEvent)` pairs.
* Wall-clock reads (`time.time()`, peak-hour / night-mode checks) are passed
  in as explicit parameters.
* Logging (`logger`, `_log_event`, `log_to_database`) is pure telemetry and
  is not modelled.
-/

/-- The four compass approaches (source: `TrafficController.DIRECTIONS`). -/
inductive Direction where
  | NORTH
  | EAST
  | SOUTH
  | WEST
  deriving DecidableEq

/-- Signal states used by the controller and the LED collaborator. -/
inductive SignalState where
  | RED
  | YELLOW
  | GREEN
  | RED_YELLOW
  | OFF
  deriving DecidableEq

/-- Controller modes (source: `self.mode`). -/
inductive Mode where
  | SIMPLE
  | AUTO
  | MANUAL
  deriving DecidableEq

/-- Commands issued to the signal-output collaborator, plus blocking waits. -/
inductive Cmd where
  | setState (s : SignalState)
  | setDirState (d : Direction) (s : SignalState)
  | setAllRed
  | sleep (t : ℚ)
  deriving DecidableEq

/-- One-shot deferred events scheduled via `threading.Timer`. -/
inductive TimerEvent where
  | setSimpleGreen
  | setSimpleRed
  | endEmergencyTimer
  deriving DecidableEq

/-- `DIRECTIONS = ['NORTH', 'EAST', 'SOUTH', 'WEST']`, in source order. -/
def dirList : List Direction :=
  [Direction.NORTH, Direction.EAST, Direction.SOUTH, Direction.WEST]

/-- Pointwise update of a per-direction map (a Python dict assignment). -/
def updD {α : Type} (f : Direction → α) (d : Direction) (v : α) : Direction → α :=
  fun x => if x = d then v else f x

/-- Python `int(x)`: truncation toward zero. -/
def truncInt (q : ℚ) : Int := Int.tdiv q.num (q.den : Int)

/-- Python `max(lo, min(hi, int(x)))` on integers, as used by the settings update. -/
def clampI (lo hi : Int) (q : ℚ) : Int := max lo (min hi (truncInt q))

/-- Python `max(lo, min(hi, float(x)))`, as used for the priority-lane multiplier. -/
def clampQ (lo hi q : ℚ) : ℚ := max lo (min hi q)

/-- The `self.stats` counters touched by the modelled operations. -/
structure Stats where
  total_vehicles_processed : Nat
  pedestrian_requests_served : Nat
  pedestrian_requests_denied : Nat
  cycle_count : Nat
  priority_lane_activations : Nat
  deriving DecidableEq

/-- The controller state: the (instance-mutable) algorithm settings followed by
the mutable fields initialised in `TrafficController.__init__`. -/
structure Ctrl where
  T_MIN : Int
  T_MAX : Int
  T_PER_VEHICLE : Int
  T_YELLOW : ℚ
  T_RED_YELLOW : ℚ
  T_PEDESTRIAN : Int
  T_PEDESTRIAN_COOLDOWN : Int
  T_PEDESTRIAN_MIN_WAIT : Int
  T_PEDESTRIAN_MAX_WAIT : Int
  T_CAR_MIN_GREEN : Int
  T_CAR_EXTENSION : Int
  T_CAR_WAITING_BONUS : Int
  SPEED_ESTIMATION_ENABLED : Bool
  PRIORITY_LANE_ENABLED : Bool
  PRIORITY_LANE_DIRECTION : Direction
  PRIORITY_LANE_MULTIPLIER : ℚ
  PRIORITY_LANE_MIN_VEHICLES : Int
  BALANCE_ENABLED : Bool
  MAX_WAIT_CYCLES : Int
  SIMPLE_GREEN_DURATION : ℚ
  SIMPLE_YELLOW_DURATION : ℚ
  EMERGENCY_PRIORITY : Bool
  EMERGENCY_GREEN_TIME : ℚ
  emergency_active : Bool
  emergency_direction : Option Direction
  current_direction : Direction
  current_state : SignalState
  mode : Mode
  vehicle_counts : Direction → Int
  last_detection_time : ℚ
  simple_state : SignalState
  car_waiting_time : Direction → ℚ
  car_waiting_start : Direction → ℚ
  waiting_cycles : Direction → Nat
  pedestrian_count : Direction → Nat
  pedestrian_waiting_start : Direction → ℚ
  pedestrian_waiting_time : Direction → ℚ
  vehicle_speed_estimate : Direction → ℚ
  vehicle_history : Direction → List (ℚ × Int)
  pedestrian_requests : Direction → Bool
  pedestrian_last_served : Direction → ℚ
  stats : Stats

/-- A freshly constructed controller: the class-attribute defaults together
with the `__init__` state. -/
def defaultCtrl : Ctrl where
  T_MIN := 10
  T_MAX := 60
  T_PER_VEHICLE := 3
  T_YELLOW := 2
  T_RED_YELLOW := 3/2
  T_PEDESTRIAN := 12
  T_PEDESTRIAN_COOLDOWN := 45
  T_PEDESTRIAN_MIN_WAIT := 20
  T_PEDESTRIAN_MAX_WAIT := 120
  T_CAR_MIN_GREEN := 15
  T_CAR_EXTENSION := 5
  T_CAR_WAITING_BONUS := 2
  SPEED_ESTIMATION_ENABLED := true
  PRIORITY_LANE_ENABLED := false
  PRIORITY_LANE_DIRECTION := Direction.NORTH
  PRIORITY_LANE_MULTIPLIER := 3/2
  PRIORITY_LANE_MIN_VEHICLES := 1
  BALANCE_ENABLED := true
  MAX_WAIT_CYCLES := 3
  SIMPLE_GREEN_DURATION := 5
  SIMPLE_YELLOW_DURATION := 2
  EMERGENCY_PRIORITY := false
  EMERGENCY_GREEN_TIME := 20
  emergency_active := false
  emergency_direction := none
  current_direction := Direction.NORTH
  current_state := SignalState.RED
  mode := Mode.SIMPLE
  vehicle_counts := fun _ => 0
  last_detection_time := 0
  simple_state := SignalState.RED
  car_waiting_time := fun _ => 0
  car_waiting_start := fun _ => 0
  waiting_cycles := fun _ => 0
  pedestrian_count := fun _ => 0
  pedestrian_waiting_start := fun _ => 0
  pedestrian_waiting_time := fun _ => 0
  vehicle_speed_estimate := fun _ => 0
  vehicle_history := fun _ => []
  pedestrian_requests := fun _ => false
  pedestrian_last_served := fun _ => 0
  stats := ⟨0, 0, 0, 0, 0⟩

/-- `sum(self.vehicle_counts.values())`. -/
def totalVehicles (st : Ctrl) : Int :=
  dirList.foldl (fun acc d => acc + st.vehicle_counts d) 0


/-- `TrafficController.handle_emergency` (source lines 239-276).
Returns the new state, the commands issued to the LED collaborator, and the
one-shot timers scheduled.  The exception-handler fallback (lines 274-276)
is unreachable in the pure model and is not represented. -/
def handle_emergency (st : Ctrl) (direction : Direction) :
    Ctrl × List Cmd × List (ℚ × TimerEvent) :=
  if st.EMERGENCY_PRIORITY = false then (st, [], [])
  else if st.emergency_active = false then
    ({ st with
        emergency_active := true
        emergency_direction := some direction
        current_state := SignalState.GREEN },
      [Cmd.setState SignalState.GREEN],
      [(st.EMERGENCY_GREEN_TIME, TimerEvent.endEmergencyTimer)])
  else (st, [], [])

/-- `TrafficController._end_emergency` (source lines 278-284), fired by the
timer scheduled in `handle_emergency`. -/
def end_emergency (st : Ctrl) : Ctrl :=
  { st with emergency_active := false, emergency_direction := none }

/-- `TrafficController._handle_simple_mode_detection` (source lines 355-404).
`new_total` is the aggregate vehicle total; `now` is `time.time()`. -/
def handle_simple_mode_detection (st : Ctrl) (new_total : Int) (now : ℚ) :
    Ctrl × List Cmd × List (ℚ × TimerEvent) :=
  if 0 < new_total then
    if st.simple_state ≠ SignalState.GREEN then
      if st.simple_state = SignalState.RED then
        ({ st with
            simple_state := SignalState.RED_YELLOW
            current_state := SignalState.RED_YELLOW
            last_detection_time := now },
          [Cmd.setState SignalState.RED_YELLOW],
          [(1, TimerEvent.setSimpleGreen)])
      else if st.simple_state = SignalState.YELLOW then
        ({ st with
            simple_state := SignalState.GREEN
            current_state := SignalState.GREEN
            last_detection_time := now },
          [Cmd.setState SignalState.GREEN], [])
      else ({ st with last_detection_time := now }, [], [])
    else ({ st with last_detection_time := now }, [], [])
  else
    if st.simple_state = SignalState.GREEN ∧
        st.SIMPLE_GREEN_DURATION ≤ now - st.last_detection_time then
      ({ st with
          simple_state := SignalState.YELLOW
          current_state := SignalState.YELLOW },
        [Cmd.setState SignalState.YELLOW],
        [(st.SIMPLE_YELLOW_DURATION, TimerEvent.setSimpleRed)])
    else (st, [], [])

/-- The optional `emergency_info` argument of `update_vehicle_counts`. -/
structure EmInfo where
  detected : Bool
  direction : Direction

/-- `TrafficController.update_vehicle_counts` (source lines 305-353): the
emergency dispatch, the wholesale overwrite of `self.vehicle_counts` from the
(untrusted) `counts_dict`, the early return while an emergency is active, and
the SIMPLE-mode dispatch.  A direction missing from `counts_dict` keeps its
previous count. -/
def update_vehicle_counts (st : Ctrl) (counts_dict : Direction → Option Int)
    (emergency_info : Option EmInfo) (now : ℚ) :
    Ctrl × List Cmd × List (ℚ × TimerEvent) :=
  match emergency_info with
  | some e =>
    if e.detected then handle_emergency st e.direction
    else update_vehicle_counts_normal st counts_dict now
  | none => update_vehicle_counts_normal st counts_dict now
where
  update_vehicle_counts_normal (st : Ctrl) (counts_dict : Direction → Option Int)
      (now : ℚ) : Ctrl × List Cmd × List (ℚ × TimerEvent) :=
    let st1 : Ctrl :=
      { st with vehicle_counts := fun d => (counts_dict d).getD (st.vehicle_counts d) }
    if st1.emergency_active then (st1, [], [])
    else if st1.mode = Mode.SIMPLE then
      handle_simple_mode_detection st1 (totalVehicles st1) now
    else (st1, [], [])

/-- `TrafficController.request_pedestrian_crossing` (source lines 427-454),
the boolean control-API entry point.  The invalid-direction guard is
subsumed by the `Direction` type. -/
def request_pedestrian_crossing (st : Ctrl) (direction : Direction) (now : ℚ) :
    Ctrl × Bool :=
  if now - st.pedestrian_last_served direction < (st.T_PEDESTRIAN_COOLDOWN : ℚ) then
    (st, false)
  else
    ({ st with pedestrian_requests := updD st.pedestrian_requests direction true }, true)

/-- Result of `handle_pedestrian_request_intelligent`: the rejected-in-cooldown
dict (with the reported remaining seconds) or the accepted dict (with the
estimated wait and `cars_ahead`). -/
inductive PedIntResult where
  | cooldown (remaining : Int)
  | accepted (estimated_wait : ℚ) (cars_ahead : Int)
  deriving DecidableEq

/-- `TrafficController.handle_pedestrian_request_intelligent` (source lines
780-834).  The invalid-direction guard is subsumed by the `Direction` type. -/
def handle_pedestrian_request_intelligent (st : Ctrl) (direction : Direction)
    (now : ℚ) : Ctrl × PedIntResult :=
  let last_served := st.pedestrian_last_served direction
  if now - last_served < (st.T_PEDESTRIAN_COOLDOWN : ℚ) then
    ({ st with stats := { st.stats with
        pedestrian_requests_denied := st.stats.pedestrian_requests_denied + 1 } },
      PedIntResult.cooldown (truncInt ((st.T_PEDESTRIAN_COOLDOWN : ℚ) - (now - last_served))))
  else
    let st1 : Ctrl :=
      { st with
          pedestrian_requests := updD st.pedestrian_requests direction true
          pedestrian_count := updD st.pedestrian_count direction
            (st.pedestrian_count direction + 1)
          pedestrian_waiting_start :=
            if st.pedestrian_waiting_start direction = 0 then
              updD st.pedestrian_waiting_start direction now
            else st.pedestrian_waiting_start }
    let car_count := totalVehicles st1
    let estimated_wait : ℚ :=
      if 0 < car_count then
        min (max (st.T_PEDESTRIAN_MIN_WAIT : ℚ) ((car_count : ℚ) * 3))
          (st.T_PEDESTRIAN_MAX_WAIT : ℚ)
      else 5
    (st1, PedIntResult.accepted estimated_wait car_count)

/-- `TrafficController.emergency_stop` (source lines 1018-1026): all lights
red and the mode forced to MANUAL. -/
def emergency_stop (st : Ctrl) : Ctrl × List Cmd :=
  ({ st with mode := Mode.MANUAL }, [Cmd.setAllRed])

/-- `TrafficController._execute_transition` (source lines 836-863) as the
ordered trace of LED commands and sleeps it performs. -/
def executeTransitionTrace (st : Ctrl) (from_direction to_direction : Direction) :
    List Cmd :=
  [Cmd.setDirState from_direction SignalState.YELLOW,
   Cmd.sleep st.T_YELLOW,
   Cmd.setDirState from_direction SignalState.RED,
   Cmd.sleep (1/2),
   Cmd.setDirState to_direction SignalState.RED_YELLOW,
   Cmd.sleep st.T_RED_YELLOW,
   Cmd.setDirState to_direction SignalState.GREEN]

/-- `TrafficController.update_waiting_times` (source lines 527-549). -/
def update_waiting_times (st : Ctrl) (now : ℚ) : Ctrl :=
  { st with
      car_waiting_start := fun d =>
        if 0 < st.vehicle_counts d ∧ st.car_waiting_start d = 0 then now
        else st.car_waiting_start d
      car_waiting_time := fun d =>
        if 0 < st.vehicle_counts d ∧ st.car_waiting_start d ≠ 0 then
          now - st.car_waiting_start d
        else st.car_waiting_time d
      pedestrian_waiting_start := fun d =>
        if st.pedestrian_requests d ∧ st.pedestrian_waiting_start d = 0 then now
        else st.pedestrian_waiting_start d
      pedestrian_waiting_time := fun d =>
        if st.pedestrian_requests d ∧ st.pedestrian_waiting_start d ≠ 0 then
          now - st.pedestrian_waiting_start d
        else st.pedestrian_waiting_time d }

/-- `TrafficController.reset_waiting_time` (source lines 551-559). -/
def reset_waiting_time (st : Ctrl) (direction : Direction) : Ctrl :=
  let st1 : Ctrl :=
    { st with
        car_waiting_time := updD st.car_waiting_time direction 0
        car_waiting_start := updD st.car_waiting_start direction 0
        waiting_cycles := updD st.waiting_cycles direction 0 }
  if st.pedestrian_requests direction then
    { st1 with
        pedestrian_waiting_time := updD st1.pedestrian_waiting_time direction 0
        pedestrian_waiting_start := updD st1.pedestrian_waiting_start direction 0 }
  else st1

/-- `TrafficController.estimate_vehicle_speed` (source lines 561-585).
`vehicle_history` lists samples oldest first, as the source deque does. -/
def estimate_vehicle_speed (st : Ctrl) (direction : Direction) : ℚ :=
  if st.SPEED_ESTIMATION_ENABLED = false then 0
  else
    let history := st.vehicle_history direction
    if history.length < 2 then 0
    else
      match history.head?, history.getLast? with
      | some first, some last =>
        if first.2 < last.2 then
          let time_diff := last.1 - first.1
          if 0 < time_diff then ((last.2 - first.2 : Int) : ℚ) / time_diff else 0
        else 0
      | _, _ => 0

/-- `TrafficController.calculate_direction_priority_score` (source lines
594-648).  The priority-lane and pedestrian adjustments are split into the
helpers below, applied in source order. -/
def laneScoreAdj (st : Ctrl) (direction : Direction) (score : ℚ) : ℚ :=
  if st.PRIORITY_LANE_ENABLED = true ∧ direction = st.PRIORITY_LANE_DIRECTION ∧
      st.PRIORITY_LANE_MIN_VEHICLES ≤ st.vehicle_counts direction then
    score * st.PRIORITY_LANE_MULTIPLIER
  else score

/-- The pedestrian adjustment of `calculate_direction_priority_score`
(source lines 636-646): forced-crossing zeroing past the max wait, and the
+20 car-favour penalty below the min wait. -/
def pedScoreAdj (st : Ctrl) (direction : Direction) (score : ℚ) : ℚ :=
  if st.pedestrian_requests direction = true then
    if (st.T_PEDESTRIAN_MAX_WAIT : ℚ) ≤ st.pedestrian_waiting_time direction then 0
    else if st.pedestrian_waiting_time direction < (st.T_PEDESTRIAN_MIN_WAIT : ℚ) then
      score + 20
    else score
  else score

/-- Body of `calculate_direction_priority_score`: base score from vehicles,
wait-time bonus, anti-starvation bonus, capped speed bonus, then the lane and
pedestrian adjustments. -/
def calculate_direction_priority_score (st : Ctrl) (direction : Direction) : ℚ :=
  let vehicle_count := st.vehicle_counts direction
  let wait_time := st.car_waiting_time direction
  let cycles_waiting := st.waiting_cycles direction
  let speed := st.vehicle_speed_estimate direction
  let score := (vehicle_count : ℚ) * 10
  let score := score + (wait_time / 10) * (st.T_CAR_WAITING_BONUS : ℚ)
  let score := score + (cycles_waiting : ℚ) * 10
  let score := if 0 < speed then score + 5 * min speed 2 else score
  pedScoreAdj st direction (laneScoreAdj st direction score)

/-- The `max_other_wait` loop of `_calculate_green_time`
(source lines 702-705). -/
def maxOtherWait (st : Ctrl) (direction : Direction) : Nat :=
  dirList.foldl
    (fun acc other => if other ≠ direction then max acc (st.waiting_cycles other) else acc)
    0

/-- `TrafficController._calculate_green_time` (source lines 650-717).
`isPeak` and `isNight` stand for the wall-clock reads `_is_peak_hour()` and
`_is_night_mode()`; the `priority_lane_activations` statistics increment on
the lane branch is telemetry and is not modelled. -/
def calculate_green_time_auto (st : Ctrl) (direction : Direction)
    (isPeak isNight : Bool) : ℚ :=
  let vehicle_count := st.vehicle_counts direction
  let wait_time := st.car_waiting_time direction
  let speed := estimate_vehicle_speed st direction
  let base_time := (st.T_CAR_MIN_GREEN : ℚ) + (vehicle_count : ℚ) * (st.T_PER_VEHICLE : ℚ)
  let base_time := base_time + (wait_time / 10) * (st.T_CAR_WAITING_BONUS : ℚ)
  let base_time :=
    if (1/2 : ℚ) < speed then base_time + (st.T_CAR_EXTENSION : ℚ) * min speed 2
    else base_time
  let base_time :=
    if st.PRIORITY_LANE_ENABLED = true ∧ direction = st.PRIORITY_LANE_DIRECTION then
      base_time * st.PRIORITY_LANE_MULTIPLIER
    else base_time
  let base_time := if isPeak then base_time * (6/5) else base_time
  let base_time :=
    if isNight ∧ vehicle_count < 2 then max ((st.T_MIN : ℚ) / 2) 5 else base_time
  let base_time :=
    if st.BALANCE_ENABLED = true ∧ st.MAX_WAIT_CYCLES ≤ (maxOtherWait st direction : Int) then
      base_time * (7/10)
    else base_time
  max (st.T_MIN : ℚ) (min base_time (st.T_MAX : ℚ))

/-- Stable insertion into a score-descending list: the new element goes after
every element whose score is greater than or equal to its own.  Together with
`sortDesc` this models Python's stable `scores.sort(reverse=True, key=score)`
(source line 753). -/
def insertDesc (x : ℚ × Direction) : List (ℚ × Direction) → List (ℚ × Direction)
  | [] => [x]
  | y :: ys => if y.1 < x.1 then x :: y :: ys else y :: insertDesc x ys

/-- Stable descending sort by score (Python `list.sort(reverse=True)`). -/
def sortDesc (l : List (ℚ × Direction)) : List (ℚ × Direction) :=
  l.foldl (fun acc x => insertDesc x acc) []

/-- The forced-pedestrian-crossing scan of `_select_next_direction`
(source lines 737-742): the first direction, in `DIRECTIONS` order, whose
pending pedestrian has waited at least `T_PEDESTRIAN_MAX_WAIT`. -/
def forcedPedCandidate (st : Ctrl) : Option Direction :=
  dirList.find? fun d =>
    st.pedestrian_requests d &&
      decide ((st.T_PEDESTRIAN_MAX_WAIT : ℚ) ≤ st.pedestrian_waiting_time d)

/-- The scoring-based selection of `_select_next_direction` (source lines
744-766): stable descending sort of the per-direction scores, take the top,
and fall through the sorted list to the first direction with vehicles or a
pedestrian request when the top has neither. -/
def selectNoForced (st : Ctrl) : Direction :=
  let sorted := sortDesc (dirList.map fun d => (calculate_direction_priority_score st d, d))
  let top := sorted.headD (0, Direction.NORTH)
  if st.vehicle_counts top.2 = 0 ∧ st.pedestrian_requests top.2 = false then
    match sorted.tail.find?
        (fun p => decide (0 < st.vehicle_counts p.2) || st.pedestrian_requests p.2) with
    | some p => p.2
    | none => top.2
  else top.2

/-- Source lines 768-772 of `_select_next_direction`: `waiting_cycles[d] += 1`
for every non-selected direction with vehicles present. -/
def incCyclesNonSelected (st : Ctrl) (sel : Direction) : Ctrl :=
  { st with
      waiting_cycles := fun d =>
        if d ≠ sel ∧ 0 < st.vehicle_counts d then st.waiting_cycles d + 1
        else st.waiting_cycles d }

/-- `TrafficController._select_next_direction` (source lines 719-778):
update the waiting times, serve a forced pedestrian crossing immediately
(bypassing scoring, increments and resets), otherwise select by score,
increment (`incCyclesNonSelected`, source lines 768-772) the waiting-cycle
count of each non-selected direction that has vehicles, and reset the
selected direction's waiting record. -/
def selectNextDirection (st0 : Ctrl) (now : ℚ) : Direction × Ctrl :=
  match forcedPedCandidate (update_waiting_times st0 now) with
  | some d => (d, update_waiting_times st0 now)
  | none =>
    (selectNoForced (update_waiting_times st0 now),
      reset_waiting_time
        (incCyclesNonSelected (update_waiting_times st0 now)
          (selectNoForced (update_waiting_times st0 now)))
        (selectNoForced (update_waiting_times st0 now)))

/-- The waiting-cycle bookkeeping at the end of each AUTO green phase
(`_control_loop`, source lines 939-944): reset the just-served direction,
increment every other direction. -/
def roundCyclesUpdate (st : Ctrl) : Ctrl :=
  { st with
      waiting_cycles := fun d =>
        if d = st.current_direction then 0 else st.waiting_cycles d + 1 }

/-- One AUTO-mode scheduling round's effect on the waiting records: the
round-end bookkeeping of `_control_loop` followed by `_select_next_direction`
(source lines 939-947).  Returns the selected direction and the new state. -/
def autoRound (st : Ctrl) (now : ℚ) : Direction × Ctrl :=
  selectNextDirection (roundCyclesUpdate st) now

/-- The partial settings payload of `update_algorithm_settings` (source lines
1075-1162), flattened: a leaf is `none` when its key (or its enclosing
section) is absent from the request.  Numeric leaves carry the raw untrusted
value as a rational. -/
structure SettingsUpdate where
  uT_MIN : Option ℚ
  uT_MAX : Option ℚ
  uT_PER_VEHICLE : Option ℚ
  uT_PEDESTRIAN : Option ℚ
  uT_PEDESTRIAN_COOLDOWN : Option ℚ
  uT_PEDESTRIAN_MIN_WAIT : Option ℚ
  uT_PEDESTRIAN_MAX_WAIT : Option ℚ
  uT_CAR_MIN_GREEN : Option ℚ
  uT_CAR_EXTENSION : Option ℚ
  uT_CAR_WAITING_BONUS : Option ℚ
  uLaneEnabled : Option Bool
  uLaneDirection : Option Direction
  uLaneMultiplier : Option ℚ
  uLaneMinVehicles : Option ℚ
  uBalanceEnabled : Option Bool
  uMaxWaitCycles : Option ℚ

/-- The all-absent payload. -/
def emptySettingsUpdate : SettingsUpdate :=
  ⟨none, none, none, none, none, none, none, none,
   none, none, none, none, none, none, none, none⟩

/-- `TrafficController.update_algorithm_settings` (source lines 1075-1162):
each supplied numeric field is independently clamped (`max(lo, min(hi,
int(v)))`) to its documented range and stored; the lane direction is only
accepted when valid; the reply is always success together with the list of
updated field names, in source order. -/
def update_algorithm_settings (st : Ctrl) (u : SettingsUpdate) :
    Ctrl × List String × Bool :=
  let acc : Ctrl × List String := (st, [])
  let acc := match u.uT_MIN with
    | some v => ({ acc.1 with T_MIN := clampI 5 30 v }, acc.2 ++ ["T_MIN"])
    | none => acc
  let acc := match u.uT_MAX with
    | some v => ({ acc.1 with T_MAX := clampI 30 120 v }, acc.2 ++ ["T_MAX"])
    | none => acc
  let acc := match u.uT_PER_VEHICLE with
    | some v => ({ acc.1 with T_PER_VEHICLE := clampI 1 10 v }, acc.2 ++ ["T_PER_VEHICLE"])
    | none => acc
  let acc := match u.uT_PEDESTRIAN with
    | some v => ({ acc.1 with T_PEDESTRIAN := clampI 5 30 v }, acc.2 ++ ["T_PEDESTRIAN"])
    | none => acc
  let acc := match u.uT_PEDESTRIAN_COOLDOWN with
    | some v => ({ acc.1 with T_PEDESTRIAN_COOLDOWN := clampI 10 120 v },
        acc.2 ++ ["T_PEDESTRIAN_COOLDOWN"])
    | none => acc
  let acc := match u.uT_PEDESTRIAN_MIN_WAIT with
    | some v => ({ acc.1 with T_PEDESTRIAN_MIN_WAIT := clampI 5 60 v },
        acc.2 ++ ["T_PEDESTRIAN_MIN_WAIT"])
    | none => acc
  let acc := match u.uT_PEDESTRIAN_MAX_WAIT with
    | some v => ({ acc.1 with T_PEDESTRIAN_MAX_WAIT := clampI 30 300 v },
        acc.2 ++ ["T_PEDESTRIAN_MAX_WAIT"])
    | none => acc
  let acc := match u.uT_CAR_MIN_GREEN with
    | some v => ({ acc.1 with T_CAR_MIN_GREEN := clampI 5 30 v },
        acc.2 ++ ["T_CAR_MIN_GREEN"])
    | none => acc
  let acc := match u.uT_CAR_EXTENSION with
    | some v => ({ acc.1 with T_CAR_EXTENSION := clampI 1 15 v },
        acc.2 ++ ["T_CAR_EXTENSION"])
    | none => acc
  let acc := match u.uT_CAR_WAITING_BONUS with
    | some v => ({ acc.1 with T_CAR_WAITING_BONUS := clampI 0 10 v },
        acc.2 ++ ["T_CAR_WAITING_BONUS"])
    | none => acc
  let acc := match u.uLaneEnabled with
    | some b => ({ acc.1 with PRIORITY_LANE_ENABLED := b },
        acc.2 ++ ["PRIORITY_LANE_ENABLED"])
    | none => acc
  let acc := match u.uLaneDirection with
    | some d => ({ acc.1 with PRIORITY_LANE_DIRECTION := d },
        acc.2 ++ ["PRIORITY_LANE_DIRECTION"])
    | none => acc
  let acc := match u.uLaneMultiplier with
    | some v => ({ acc.1 with PRIORITY_LANE_MULTIPLIER := clampQ 1 3 v },
        acc.2 ++ ["PRIORITY_LANE_MULTIPLIER"])
    | none => acc
  let acc := match u.uLaneMinVehicles with
    | some v => ({ acc.1 with PRIORITY_LANE_MIN_VEHICLES := clampI 1 10 v },
        acc.2 ++ ["PRIORITY_LANE_MIN_VEHICLES"])
    | none => acc
  let acc := match u.uBalanceEnabled with
    | some b => ({ acc.1 with BALANCE_ENABLED := b }, acc.2 ++ ["BALANCE_ENABLED"])
    | none => acc
  let acc := match u.uMaxWaitCycles with
    | some v => ({ acc.1 with MAX_WAIT_CYCLES := clampI 1 10 v },
        acc.2 ++ ["MAX_WAIT_CYCLES"])
    | none => acc
  (acc.1, acc.2, true)

/-- Spec-side score formula (§4.5 / claim C4): `vehicles*10 +
(waitSeconds/10)*waitingBonusWeight + waitingCycles*10 + 5*min(arrivalRate,2)`,
with the unconditional capped speed bonus, then the same lane and pedestrian
adjustments.  To be compared with `calculate_direction_priority_score`. -/
def specPriorityScore (st : Ctrl) (direction : Direction) : ℚ :=
  let base := (st.vehicle_counts direction : ℚ) * 10
    + (st.car_waiting_time direction / 10) * (st.T_CAR_WAITING_BONUS : ℚ)
    + (st.waiting_cycles direction : ℚ) * 10
    + 5 * min (st.vehicle_speed_estimate direction) 2
  pedScoreAdj st direction (laneScoreAdj st direction base)

/-- Spec-side green-time baseline (claim C3): `clamp(T_CAR_MIN_GREEN +
vehicles*T_PER_VEHICLE, T_MIN, T_MAX)`. -/
def specBaseGreen (st : Ctrl) (direction : Direction) : ℚ :=
  max (st.T_MIN : ℚ)
    (min ((st.T_CAR_MIN_GREEN : ℚ) + (st.vehicle_counts direction : ℚ) * (st.T_PER_VEHICLE : ℚ))
      (st.T_MAX : ℚ))

/-- Spec-side pedestrian estimated wait (claim C6): `clamp(max(minWait,
carsAhead*3), minWait, maxWait)`. -/
def specEstimatedWait (st : Ctrl) (cars_ahead : Int) : ℚ :=
  max (st.T_PEDESTRIAN_MIN_WAIT : ℚ)
    (min (max (st.T_PEDESTRIAN_MIN_WAIT : ℚ) ((cars_ahead : ℚ) * 3))
      (st.T_PEDESTRIAN_MAX_WAIT : ℚ))

/-- Claim C1: every normal AUTO-mode handoff from the green direction `A` to
the selected direction `B` follows the ordered four-step sequence — `A`
GREEN→YELLOW held `T_YELLOW`, `A` YELLOW→RED followed by the 0.5-second
all-red gap, `B` RED→RED_YELLOW held `T_RED_YELLOW`, `B` RED_YELLOW→GREEN —
and no command asserts GREEN on `B` before `A`'s RED command and the all-red
hold earlier in the trace. -/
theorem C1_transition_protocol (st : Ctrl) (A B : Direction) :
    executeTransitionTrace st A B =
      [Cmd.setDirState A SignalState.YELLOW, Cmd.sleep st.T_YELLOW,
       Cmd.setDirState A SignalState.RED, Cmd.sleep (1/2),
       Cmd.setDirState B SignalState.RED_YELLOW, Cmd.sleep st.T_RED_YELLOW,
       Cmd.setDirState B SignalState.GREEN] ∧
    ∀ i, (executeTransitionTrace st A B).get? i =
        some (Cmd.setDirState B SignalState.GREEN) →
      3 < i ∧
      (executeTransitionTrace st A B).get? 2 = some (Cmd.setDirState A SignalState.RED) ∧
      (executeTransitionTrace st A B).get? 3 = some (Cmd.sleep (1/2)) := by
  refine ⟨rfl, fun i hi => ⟨?_, rfl, rfl⟩⟩
  by_contra hlt
  push_neg at hlt
  interval_cases i <;> simp [executeTransitionTrace] at hi

/-- Closed instance of `C1_transition_protocol`: the GREEN command for the
incoming direction sits at index 6, after the RED command (index 2) and the
all-red hold (index 3). -/
theorem C1_transition_protocol_witness : 3 < 6 ∧
    (executeTransitionTrace defaultCtrl Direction.NORTH Direction.EAST).get? 2 =
      some (Cmd.setDirState Direction.NORTH SignalState.RED) ∧
    (executeTransitionTrace defaultCtrl Direction.NORTH Direction.EAST).get? 3 =
      some (Cmd.sleep (1/2)) :=
  (C1_transition_protocol defaultCtrl Direction.NORTH Direction.EAST).2 6 rfl

/-- Claim C2: a `handle_emergency(D2)` call while an emergency is already
active is a complete no-op — the state (in particular the active flag and the
recorded direction) is unchanged and no command or timer is issued; the
active slot is cleared (flag and direction) by `_end_emergency`, which is the
event the activation path schedules after `EMERGENCY_GREEN_TIME` seconds. -/
theorem C2_emergency_single_slot (st : Ctrl) (d2 : Direction)
    (h : st.emergency_active = true) :
    handle_emergency st d2 = (st, [], []) ∧
    (∀ st' : Ctrl, (end_emergency st').emergency_active = false ∧
      (end_emergency st').emergency_direction = none) ∧
    (∀ (st' : Ctrl) (d : Direction), st'.EMERGENCY_PRIORITY = true →
      st'.emergency_active = false →
      (handle_emergency st' d).2.2 =
        [(st'.EMERGENCY_GREEN_TIME, TimerEvent.endEmergencyTimer)]) := by
  refine ⟨?_, fun st' => ⟨rfl, rfl⟩, fun st' d hp ha => ?_⟩
  · unfold handle_emergency
    split
    · rfl
    · rw [if_neg (by simp [h])]
  · simp [handle_emergency, hp, ha]

/-- Closed instance of `C2_emergency_single_slot` at a state with an active
WEST emergency: a second call for SOUTH changes nothing, and the expiry
handler clears the flag. -/
theorem C2_emergency_single_slot_witness :
    handle_emergency
        { defaultCtrl with
            EMERGENCY_PRIORITY := true
            emergency_active := true
            emergency_direction := some Direction.WEST } Direction.SOUTH =
      ({ defaultCtrl with
          EMERGENCY_PRIORITY := true
          emergency_active := true
          emergency_direction := some Direction.WEST }, [], []) ∧
    (end_emergency
        { defaultCtrl with
            EMERGENCY_PRIORITY := true
            emergency_active := true
            emergency_direction := some Direction.WEST }).emergency_active = false := by
  have h := C2_emergency_single_slot
    { defaultCtrl with
        EMERGENCY_PRIORITY := true
        emergency_active := true
        emergency_direction := some Direction.WEST } Direction.SOUTH rfl
  exact ⟨h.1, (h.2.1 _).1⟩

/-- Claim C8: a pedestrian request inside the cooldown window is rejected by
both entry points; the intelligent entry point reports the truncated
remaining seconds of the (strictly positive) remaining cooldown, and all
per-direction pedestrian state — pending flag, wait timestamps, counter,
last-served stamp — is left exactly as it was. -/
theorem C8_cooldown_rejection (st : Ctrl) (d : Direction) (now : ℚ)
    (h : now - st.pedestrian_last_served d < (st.T_PEDESTRIAN_COOLDOWN : ℚ)) :
    request_pedestrian_crossing st d now = (st, false) ∧
    (handle_pedestrian_request_intelligent st d now).2 =
      PedIntResult.cooldown
        (truncInt ((st.T_PEDESTRIAN_COOLDOWN : ℚ) - (now - st.pedestrian_last_served d))) ∧
    0 < (st.T_PEDESTRIAN_COOLDOWN : ℚ) - (now - st.pedestrian_last_served d) ∧
    (handle_pedestrian_request_intelligent st d now).1.pedestrian_requests =
      st.pedestrian_requests ∧
    (handle_pedestrian_request_intelligent st d now).1.pedestrian_waiting_start =
      st.pedestrian_waiting_start ∧
    (handle_pedestrian_request_intelligent st d now).1.pedestrian_waiting_time =
      st.pedestrian_waiting_time ∧
    (handle_pedestrian_request_intelligent st d now).1.pedestrian_count =
      st.pedestrian_count ∧
    (handle_pedestrian_request_intelligent st d now).1.pedestrian_last_served =
      st.pedestrian_last_served := by
  refine ⟨?_, ?_, by linarith, ?_, ?_, ?_, ?_, ?_⟩ <;>
    simp [request_pedestrian_crossing, handle_pedestrian_request_intelligent, h]

/-- Closed instance of `C8_cooldown_rejection`: a request for NORTH 10 s
after construction (cooldown 45 s) is rejected with no state change. -/
theorem C8_cooldown_rejection_witness :
    request_pedestrian_crossing defaultCtrl Direction.NORTH 10 = (defaultCtrl, false) ∧
    0 < (defaultCtrl.T_PEDESTRIAN_COOLDOWN : ℚ) -
      (10 - defaultCtrl.pedestrian_last_served Direction.NORTH) := by
  have h := C8_cooldown_rejection defaultCtrl Direction.NORTH 10
    (by norm_num [defaultCtrl])
  exact ⟨h.1, h.2.2.1⟩

/-- Claim C10: `emergency_stop()` in any mode commands all directions to RED
and, as a side effect, switches the controller mode to MANUAL (so neither
SIMPLE nor AUTO scheduling resumes until `set_mode` is called again). -/
theorem C10_emergency_stop_forces_manual (st : Ctrl) :
    (emergency_stop st).1.mode = Mode.MANUAL ∧
    (emergency_stop st).2 = [Cmd.setAllRed] :=
  ⟨rfl, rfl⟩

/-- `_handle_simple_mode_detection` never touches the vehicle counts. -/
lemma simple_mode_preserves_counts (st : Ctrl) (t : Int) (now : ℚ) :
    (handle_simple_mode_detection st t now).1.vehicle_counts = st.vehicle_counts := by
  unfold handle_simple_mode_detection
  split_ifs <;> rfl

/-- Claim C5 counterexample: `update_vehicle_counts` performs no clamping —
feeding `NORTH := -5` stores the negative value verbatim. -/
theorem C5_no_clamp_counterexample :
    ((update_vehicle_counts defaultCtrl
        (fun d => if d = Direction.NORTH then some (-5) else none) none 0).1).vehicle_counts
      Direction.NORTH = -5 ∧ (-5 : Int) < 0 := by
  exact ⟨rfl, by decide⟩

/-- Claim C5 as amended: with no emergency signalled, every count supplied in
the payload is stored verbatim — no clamping to zero — and every absent
direction keeps its previous count. -/
theorem C5_counts_stored_verbatim (st : Ctrl) (counts_dict : Direction → Option Int)
    (now : ℚ) (d : Direction) (n : Int) (h : counts_dict d = some n) :
    ((update_vehicle_counts st counts_dict none now).1).vehicle_counts d = n ∧
    (∀ d', counts_dict d' = none →
      ((update_vehicle_counts st counts_dict none now).1).vehicle_counts d' =
        st.vehicle_counts d') := by
  show (update_vehicle_counts.update_vehicle_counts_normal st counts_dict now).1.vehicle_counts d
      = n ∧ _
  constructor
  · simp only [update_vehicle_counts.update_vehicle_counts_normal]
    split_ifs <;> simp [simple_mode_preserves_counts, h]
  · intro d' h'
    show (update_vehicle_counts.update_vehicle_counts_normal st counts_dict now).1.vehicle_counts d'
        = st.vehicle_counts d'
    simp only [update_vehicle_counts.update_vehicle_counts_normal]
    split_ifs <;> simp [simple_mode_preserves_counts, h']

/-- Closed instance of `C5_counts_stored_verbatim`: a supplied count of 7 for
EAST is stored as 7 and the untouched WEST count stays 0. -/
theorem C5_counts_stored_verbatim_witness :
    ((update_vehicle_counts defaultCtrl
        (fun d => if d = Direction.EAST then some 7 else none) none 0).1).vehicle_counts
      Direction.EAST = 7 ∧
    ((update_vehicle_counts defaultCtrl
        (fun d => if d = Direction.EAST then some 7 else none) none 0).1).vehicle_counts
      Direction.WEST = defaultCtrl.vehicle_counts Direction.WEST := by
  have h := C5_counts_stored_verbatim defaultCtrl
    (fun d => if d = Direction.EAST then some 7 else none) 0 Direction.EAST 7 (by decide)
  exact ⟨h.1, h.2 Direction.WEST (by decide)⟩

/-- Claim C6 counterexample: a request accepted with zero cars ahead returns
an estimated wait of 5 s, not the claimed
`clamp(max(minWait, 0*3), minWait, maxWait) = 20` s. -/
theorem C6_zero_cars_counterexample :
    (handle_pedestrian_request_intelligent defaultCtrl Direction.NORTH 100).2 =
      PedIntResult.accepted 5 0 ∧
    specEstimatedWait defaultCtrl 0 = 20 ∧ (5 : ℚ) ≠ 20 := by
  refine ⟨?_, by norm_num [specEstimatedWait, defaultCtrl], by norm_num⟩
  unfold handle_pedestrian_request_intelligent
  rw [if_neg (by norm_num [defaultCtrl])]
  simp [totalVehicles, dirList, defaultCtrl, updD]

/-- Claim C6 as amended: every accepted request (valid direction, outside the
cooldown) sets the pending flag, records the wait-start timestamp when it was
unset (and keeps it otherwise), and returns success with an estimated wait of
`min(max(T_PEDESTRIAN_MIN_WAIT, carsAhead*3), T_PEDESTRIAN_MAX_WAIT)` when
`carsAhead > 0` and a fixed 5 seconds when `carsAhead` is 0 (or negative). -/
theorem C6_accepted_request (st : Ctrl) (d : Direction) (now : ℚ)
    (h : ¬ now - st.pedestrian_last_served d < (st.T_PEDESTRIAN_COOLDOWN : ℚ)) :
    (handle_pedestrian_request_intelligent st d now).1.pedestrian_requests d = true ∧
    (st.pedestrian_waiting_start d = 0 →
      (handle_pedestrian_request_intelligent st d now).1.pedestrian_waiting_start d = now) ∧
    (st.pedestrian_waiting_start d ≠ 0 →
      (handle_pedestrian_request_intelligent st d now).1.pedestrian_waiting_start d =
        st.pedestrian_waiting_start d) ∧
    (handle_pedestrian_request_intelligent st d now).2 =
      PedIntResult.accepted
        (if 0 < totalVehicles st then
          min (max (st.T_PEDESTRIAN_MIN_WAIT : ℚ) ((totalVehicles st : ℚ) * 3))
            (st.T_PEDESTRIAN_MAX_WAIT : ℚ)
        else 5)
        (totalVehicles st) := by
  refine ⟨?_, fun h0 => ?_, fun h0 => ?_, ?_⟩
  · simp [handle_pedestrian_request_intelligent, h, updD]
  · simp [handle_pedestrian_request_intelligent, h, h0, updD]
  · simp [handle_pedestrian_request_intelligent, h, h0, updD]
  · simp [handle_pedestrian_request_intelligent, h, totalVehicles]

/-- Closed instance of `C6_accepted_request`: the first NORTH request at
`t = 100` on a fresh controller is accepted, pends, and stamps its start. -/
theorem C6_accepted_request_witness :
    (handle_pedestrian_request_intelligent defaultCtrl Direction.NORTH 100).1.pedestrian_requests
      Direction.NORTH = true ∧
    (handle_pedestrian_request_intelligent defaultCtrl
        Direction.NORTH 100).1.pedestrian_waiting_start Direction.NORTH = 100 := by
  have h := C6_accepted_request defaultCtrl Direction.NORTH 100 (by norm_num [defaultCtrl])
  exact ⟨h.1, h.2.1 rfl⟩

/-- Integer clamping lands in the documented range. -/
lemma clampI_mem (lo hi : Int) (q : ℚ) (h : lo ≤ hi) :
    lo ≤ clampI lo hi q ∧ clampI lo hi q ≤ hi :=
  ⟨le_max_left _ _, max_le h (min_le_left _ _)⟩

/-- Rational clamping lands in the documented range. -/
lemma clampQ_mem (lo hi q : ℚ) (h : lo ≤ hi) :
    lo ≤ clampQ lo hi q ∧ clampQ lo hi q ≤ hi :=
  ⟨le_max_left _ _, max_le h (min_le_left _ _)⟩

/-- A payload supplying every numeric field (and none of the boolean or
direction fields). -/
def fullNumericPayload (a b c e f g i j k l m n o : ℚ) : SettingsUpdate :=
  ⟨some a, some b, some c, some e, some f, some g, some i, some j, some k,
   some l, none, none, some m, some n, none, some o⟩

/-- Claim C9: `update_algorithm_settings` clamps each supplied numeric field
independently to its documented range — all thirteen numeric fields land in
range and equal the clamp of their raw input, whatever that input is — the
reply is always success, and in particular setting `T_MIN` to 100 stores 30
and reports the update as applied. -/
theorem C9_settings_clamped :
    (∀ (st : Ctrl) (a b c e f g i j k l m n o : ℚ),
      let r := update_algorithm_settings st (fullNumericPayload a b c e f g i j k l m n o)
      (r.1.T_MIN = clampI 5 30 a ∧ 5 ≤ r.1.T_MIN ∧ r.1.T_MIN ≤ 30) ∧
      (r.1.T_MAX = clampI 30 120 b ∧ 30 ≤ r.1.T_MAX ∧ r.1.T_MAX ≤ 120) ∧
      (r.1.T_PER_VEHICLE = clampI 1 10 c ∧ 1 ≤ r.1.T_PER_VEHICLE ∧ r.1.T_PER_VEHICLE ≤ 10) ∧
      (r.1.T_PEDESTRIAN = clampI 5 30 e ∧ 5 ≤ r.1.T_PEDESTRIAN ∧ r.1.T_PEDESTRIAN ≤ 30) ∧
      (r.1.T_PEDESTRIAN_COOLDOWN = clampI 10 120 f ∧ 10 ≤ r.1.T_PEDESTRIAN_COOLDOWN ∧
        r.1.T_PEDESTRIAN_COOLDOWN ≤ 120) ∧
      (r.1.T_PEDESTRIAN_MIN_WAIT = clampI 5 60 g ∧ 5 ≤ r.1.T_PEDESTRIAN_MIN_WAIT ∧
        r.1.T_PEDESTRIAN_MIN_WAIT ≤ 60) ∧
      (r.1.T_PEDESTRIAN_MAX_WAIT = clampI 30 300 i ∧ 30 ≤ r.1.T_PEDESTRIAN_MAX_WAIT ∧
        r.1.T_PEDESTRIAN_MAX_WAIT ≤ 300) ∧
      (r.1.T_CAR_MIN_GREEN = clampI 5 30 j ∧ 5 ≤ r.1.T_CAR_MIN_GREEN ∧
        r.1.T_CAR_MIN_GREEN ≤ 30) ∧
      (r.1.T_CAR_EXTENSION = clampI 1 15 k ∧ 1 ≤ r.1.T_CAR_EXTENSION ∧
        r.1.T_CAR_EXTENSION ≤ 15) ∧
      (r.1.T_CAR_WAITING_BONUS = clampI 0 10 l ∧ 0 ≤ r.1.T_CAR_WAITING_BONUS ∧
        r.1.T_CAR_WAITING_BONUS ≤ 10) ∧
      (r.1.PRIORITY_LANE_MULTIPLIER = clampQ 1 3 m ∧ 1 ≤ r.1.PRIORITY_LANE_MULTIPLIER ∧
        r.1.PRIORITY_LANE_MULTIPLIER ≤ 3) ∧
      (r.1.PRIORITY_LANE_MIN_VEHICLES = clampI 1 10 n ∧ 1 ≤ r.1.PRIORITY_LANE_MIN_VEHICLES ∧
        r.1.PRIORITY_LANE_MIN_VEHICLES ≤ 10) ∧
      (r.1.MAX_WAIT_CYCLES = clampI 1 10 o ∧ 1 ≤ r.1.MAX_WAIT_CYCLES ∧
        r.1.MAX_WAIT_CYCLES ≤ 10) ∧
      r.2.2 = true) ∧
    (update_algorithm_settings defaultCtrl
        { emptySettingsUpdate with uT_MIN := some 100 }).1.T_MIN = 30 ∧
    (update_algorithm_settings defaultCtrl
        { emptySettingsUpdate with uT_MIN := some 100 }).2.1 = ["T_MIN"] ∧
    (update_algorithm_settings defaultCtrl
        { emptySettingsUpdate with uT_MIN := some 100 }).2.2 = true := by
  refine ⟨fun st a b c e f g i j k l m n o => ?_, by decide, rfl, rfl⟩
  refine ⟨⟨rfl, clampI_mem 5 30 a (by norm_num)⟩,
    ⟨rfl, clampI_mem 30 120 b (by norm_num)⟩,
    ⟨rfl, clampI_mem 1 10 c (by norm_num)⟩,
    ⟨rfl, clampI_mem 5 30 e (by norm_num)⟩,
    ⟨rfl, clampI_mem 10 120 f (by norm_num)⟩,
    ⟨rfl, clampI_mem 5 60 g (by norm_num)⟩,
    ⟨rfl, clampI_mem 30 300 i (by norm_num)⟩,
    ⟨rfl, clampI_mem 5 30 j (by norm_num)⟩,
    ⟨rfl, clampI_mem 1 15 k (by norm_num)⟩,
    ⟨rfl, clampI_mem 0 10 l (by norm_num)⟩,
    ⟨rfl, clampQ_mem 1 3 m (by norm_num)⟩,
    ⟨rfl, clampI_mem 1 10 n (by norm_num)⟩,
    ⟨rfl, clampI_mem 1 10 o (by norm_num)⟩,
    rfl⟩

/-- If every other direction's waiting-cycle count is below the bound, so is
the `max_other_wait` accumulator (which starts at 0). -/
lemma maxOtherWait_lt (st : Ctrl) (d : Direction) (M : Int)
    (h : ∀ d', d' ≠ d → (st.waiting_cycles d' : Int) < M) :
    (maxOtherWait st d : Int) < M := by
  cases d <;>
  · simp only [maxOtherWait, dirList, List.foldl, ne_eq, reduceCtorEq,
      not_false_eq_true, if_true, if_false, ite_true, ite_false, Nat.zero_max,
      not_true_eq_false, Nat.cast_max]
    refine max_lt (max_lt ?_ ?_) ?_ <;> exact h _ (by simp)

/-- The C3 end-to-end scenario: five vehicles in NORTH, none elsewhere. -/
def ctrlNorth5 : Ctrl :=
  { defaultCtrl with vehicle_counts := fun d => if d = Direction.NORTH then 5 else 0 }

/-- Claim C3: with zero accumulated waiting time, an arrival-rate estimate of
at most 0.5, the priority lane disabled, no peak hour, no night mode, and
every other direction's waiting-cycle count below `MAX_WAIT_CYCLES`, the
AUTO-mode green time is `clamp(T_CAR_MIN_GREEN + vehicles*T_PER_VEHICLE,
T_MIN, T_MAX)`; with default settings this gives 30 s for five vehicles and
exactly `T_CAR_MIN_GREEN = 15` s for zero vehicles. -/
theorem C3_green_time_formula (st : Ctrl) (d : Direction)
    (hw : st.car_waiting_time d = 0)
    (hs : estimate_vehicle_speed st d ≤ 1/2)
    (hl : st.PRIORITY_LANE_ENABLED = false)
    (hc : ∀ d', d' ≠ d → (st.waiting_cycles d' : Int) < st.MAX_WAIT_CYCLES) :
    calculate_green_time_auto st d false false = specBaseGreen st d ∧
    calculate_green_time_auto ctrlNorth5 Direction.NORTH false false = 30 ∧
    calculate_green_time_auto defaultCtrl Direction.NORTH false false = 15 ∧
    (defaultCtrl.T_CAR_MIN_GREEN : Int) = 15 := by
  refine ⟨?_, ?_, ?_, rfl⟩
  · have hb : ¬ (st.BALANCE_ENABLED = true ∧ st.MAX_WAIT_CYCLES ≤ (maxOtherWait st d : Int)) :=
      fun hcon => absurd hcon.2 (not_le.mpr (maxOtherWait_lt st d st.MAX_WAIT_CYCLES hc))
    have hsp : ¬ ((1/2 : ℚ) < estimate_vehicle_speed st d) := not_lt.mpr hs
    have hlp : ¬ (st.PRIORITY_LANE_ENABLED = true ∧ d = st.PRIORITY_LANE_DIRECTION) := by
      simp [hl]
    simp only [calculate_green_time_auto, specBaseGreen, hw, if_neg hsp, if_neg hlp,
      if_neg hb, Bool.false_eq_true, if_false, false_and]
    norm_num
  · norm_num [calculate_green_time_auto, ctrlNorth5, defaultCtrl, estimate_vehicle_speed,
      maxOtherWait, dirList, min_def, max_def]
  · norm_num [calculate_green_time_auto, defaultCtrl, estimate_vehicle_speed,
      maxOtherWait, dirList, min_def, max_def]

/-- Closed instance of `C3_green_time_formula` at the five-vehicle NORTH
scenario: all hypotheses hold there and the clamp formula yields 30 s. -/
theorem C3_green_time_formula_witness :
    calculate_green_time_auto ctrlNorth5 Direction.NORTH false false =
      specBaseGreen ctrlNorth5 Direction.NORTH ∧
    calculate_green_time_auto ctrlNorth5 Direction.NORTH false false = 30 := by
  have h := C3_green_time_formula ctrlNorth5 Direction.NORTH rfl
    (by norm_num [estimate_vehicle_speed, ctrlNorth5, defaultCtrl]) rfl
    (by intro d' hne; norm_num [ctrlNorth5, defaultCtrl])
  exact ⟨h.1, h.2.1⟩

/-- Claim C4: the priority score equals the spec formula `vehicles*10 +
(waitSeconds/10)*T_CAR_WAITING_BONUS + waitingCycles*10 + 5*min(arrivalRate,2)`
with the priority-lane multiplier and the pedestrian zeroing/penalty applied
as described (given the arrival-rate estimate is non-negative, as the source
estimator guarantees); and the score-based selection breaks ties by direction
enum order: a four-way tie with demand selects NORTH, and an EAST/SOUTH tie
above the others with demand selects EAST. -/
theorem C4_priority_score (st : Ctrl) (d : Direction)
    (hsp : 0 ≤ st.vehicle_speed_estimate d) :
    calculate_direction_priority_score st d = specPriorityScore st d ∧
    (∀ st' : Ctrl,
      calculate_direction_priority_score st' Direction.EAST =
        calculate_direction_priority_score st' Direction.NORTH →
      calculate_direction_priority_score st' Direction.SOUTH =
        calculate_direction_priority_score st' Direction.NORTH →
      calculate_direction_priority_score st' Direction.WEST =
        calculate_direction_priority_score st' Direction.NORTH →
      0 < st'.vehicle_counts Direction.NORTH →
      selectNoForced st' = Direction.NORTH) ∧
    (∀ st' : Ctrl,
      calculate_direction_priority_score st' Direction.NORTH <
        calculate_direction_priority_score st' Direction.EAST →
      calculate_direction_priority_score st' Direction.SOUTH =
        calculate_direction_priority_score st' Direction.EAST →
      calculate_direction_priority_score st' Direction.WEST <
        calculate_direction_priority_score st' Direction.EAST →
      0 < st'.vehicle_counts Direction.EAST →
      selectNoForced st' = Direction.EAST) := by
  refine ⟨?_, ?_, ?_⟩
  · simp only [calculate_direction_priority_score, specPriorityScore]
    congr 1
    congr 1
    split_ifs with h1
    · rfl
    · have h0 : st.vehicle_speed_estimate d = 0 := le_antisymm (not_lt.mp h1) hsp
      rw [h0]
      norm_num
  · intro st' hE hS hW hd
    simp only [selectNoForced, dirList, List.map, sortDesc, List.foldl, insertDesc,
      hE, hS, hW, lt_self_iff_false, if_false, List.headD_cons, List.tail_cons]
    rw [if_neg (fun hcon => absurd hcon.1 (by omega))]
  · intro st' hN hS hW hd
    have hWE' : ¬ (calculate_direction_priority_score st' Direction.EAST <
        calculate_direction_priority_score st' Direction.WEST) := not_lt.mpr (le_of_lt hW)
    rcases lt_or_le (calculate_direction_priority_score st' Direction.NORTH)
        (calculate_direction_priority_score st' Direction.WEST) with hNW | hNW
    · simp only [selectNoForced, dirList, List.map, sortDesc, List.foldl, insertDesc,
        hS, hN, hWE', hNW, lt_self_iff_false, if_false, if_true, List.headD_cons,
        List.tail_cons]
      rw [if_neg (fun hcon => absurd hcon.1 (by omega))]
    · have hNW' : ¬ (calculate_direction_priority_score st' Direction.NORTH <
          calculate_direction_priority_score st' Direction.WEST) := not_lt.mpr hNW
      simp only [selectNoForced, dirList, List.map, sortDesc, List.foldl, insertDesc,
        hS, hN, hWE', hNW', lt_self_iff_false, if_false, if_true, List.headD_cons,
        List.tail_cons]
      rw [if_neg (fun hcon => absurd hcon.1 (by omega))]

/-- A state with one vehicle in every direction: a four-way score tie. -/
def ctrlAllOne : Ctrl := { defaultCtrl with vehicle_counts := fun _ => 1 }

/-- A state with one vehicle in EAST and SOUTH only: an EAST/SOUTH tie. -/
def ctrlEastSouthOne : Ctrl :=
  { defaultCtrl with
      vehicle_counts := fun d =>
        if d = Direction.EAST then 1 else if d = Direction.SOUTH then 1 else 0 }

/-- Closed instance of `C4_priority_score`: the formula holds on the fresh
controller, a four-way tie selects NORTH, and an EAST/SOUTH tie selects
EAST. -/
theorem C4_priority_score_witness :
    calculate_direction_priority_score defaultCtrl Direction.NORTH =
      specPriorityScore defaultCtrl Direction.NORTH ∧
    selectNoForced ctrlAllOne = Direction.NORTH ∧
    selectNoForced ctrlEastSouthOne = Direction.EAST := by
  have h := C4_priority_score defaultCtrl Direction.NORTH (le_refl 0)
  refine ⟨h.1, h.2.1 ctrlAllOne rfl rfl rfl (by decide),
    h.2.2 ctrlEastSouthOne ?_ rfl ?_ (by decide)⟩ <;>
  · norm_num [calculate_direction_priority_score, laneScoreAdj, pedScoreAdj,
      ctrlEastSouthOne, defaultCtrl]
    decide

/-- `update_waiting_times` does not touch the waiting-cycle counters. -/
lemma update_waiting_times_cycles (st : Ctrl) (now : ℚ) :
    (update_waiting_times st now).waiting_cycles = st.waiting_cycles := rfl

/-- `update_waiting_times` does not touch the vehicle counts. -/
lemma update_waiting_times_counts (st : Ctrl) (now : ℚ) :
    (update_waiting_times st now).vehicle_counts = st.vehicle_counts := rfl

/-- `roundCyclesUpdate` does not touch the vehicle counts. -/
lemma roundCyclesUpdate_counts (st : Ctrl) :
    (roundCyclesUpdate st).vehicle_counts = st.vehicle_counts := rfl

/-- The waiting-cycle map after the round-end bookkeeping. -/
lemma roundCyclesUpdate_cycles (st : Ctrl) :
    (roundCyclesUpdate st).waiting_cycles =
      fun d => if d = st.current_direction then 0 else st.waiting_cycles d + 1 := rfl

/-- `reset_waiting_time` zeroes exactly the given direction's cycle counter. -/
lemma reset_waiting_time_cycles (st : Ctrl) (d : Direction) :
    (reset_waiting_time st d).waiting_cycles = updD st.waiting_cycles d 0 := by
  simp only [reset_waiting_time]
  split <;> rfl

/-- On a round with no forced pedestrian crossing, `_select_next_direction`
takes the scoring path: the selected direction is `selectNoForced` and the
state receives the non-selected increments and the selected reset. -/
lemma selectNextDirection_noforced (st : Ctrl) (now : ℚ)
    (h : forcedPedCandidate (update_waiting_times st now) = none) :
    selectNextDirection st now =
      (selectNoForced (update_waiting_times st now),
        reset_waiting_time
          (incCyclesNonSelected (update_waiting_times st now)
            (selectNoForced (update_waiting_times st now)))
          (selectNoForced (update_waiting_times st now))) := by
  unfold selectNextDirection
  rw [h]

/-- Claim C7 as amended: on every AUTO round without a forced pedestrian
crossing, each direction that is neither the just-served (current) direction
nor the selected one is incremented — by 1 at round end, plus 1 more during
selection when it has vehicles — hence strictly increases; the selected
direction ends reset to 0; and the just-served direction is also reset,
ending at 1 when it has vehicles and was not reselected and at 0 otherwise. -/
theorem C7_waiting_cycles (st : Ctrl) (now : ℚ)
    (hf : forcedPedCandidate (update_waiting_times (roundCyclesUpdate st) now) = none) :
    (autoRound st now).2.waiting_cycles (autoRound st now).1 = 0 ∧
    (∀ d, d ≠ st.current_direction → d ≠ (autoRound st now).1 →
      (autoRound st now).2.waiting_cycles d =
        st.waiting_cycles d + 1 + (if 0 < st.vehicle_counts d then 1 else 0) ∧
      st.waiting_cycles d < (autoRound st now).2.waiting_cycles d) ∧
    (st.current_direction ≠ (autoRound st now).1 →
      (autoRound st now).2.waiting_cycles st.current_direction =
        (if 0 < st.vehicle_counts st.current_direction then 1 else 0)) := by
  have hsel := selectNextDirection_noforced (roundCyclesUpdate st) now hf
  simp only [autoRound, hsel, reset_waiting_time_cycles, incCyclesNonSelected,
    update_waiting_times_cycles, update_waiting_times_counts,
    roundCyclesUpdate_counts, roundCyclesUpdate_cycles]
  refine ⟨by simp [updD], fun d hdc hds => ?_, fun hcs => ?_⟩
  · simp only [updD, ne_eq, hds, hdc, not_false_eq_true, true_and, if_false,
      if_neg hdc]
    split_ifs <;> omega
  · simp only [updD, ne_eq, hcs, not_false_eq_true, true_and, if_false,
      eq_self_iff_true, if_true]

/-- The C7 round scenario: AUTO mode, NORTH is the current green with five
accumulated waiting cycles and no vehicles, EAST has one vehicle. -/
def ctrlC7 : Ctrl :=
  { defaultCtrl with
      mode := Mode.AUTO
      current_direction := Direction.NORTH
      waiting_cycles := fun d => if d = Direction.NORTH then 5 else 0
      vehicle_counts := fun d => if d = Direction.EAST then 1 else 0 }

/-- In the C7 scenario the scoring path selects EAST. -/
lemma ctrlC7_select :
    selectNoForced (update_waiting_times (roundCyclesUpdate ctrlC7) 0) = Direction.EAST := by
  norm_num +decide [selectNoForced, calculate_direction_priority_score, laneScoreAdj,
    pedScoreAdj, update_waiting_times, roundCyclesUpdate, ctrlC7, defaultCtrl, dirList,
    sortDesc, insertDesc, List.foldl, updD]

/-- The C7 round selects EAST. -/
lemma ctrlC7_round_fst : (autoRound ctrlC7 0).1 = Direction.EAST := by
  have hsel := selectNextDirection_noforced (roundCyclesUpdate ctrlC7) 0 rfl
  simp only [autoRound, hsel]
  exact ctrlC7_select

/-- Claim C7 counterexample: in the C7 scenario NORTH is not selected (EAST
is), yet NORTH's waiting-cycle count is not incremented at round end — it
drops from 5 to 0, because the round resets the just-served direction too. -/
theorem C7_round_counterexample :
    ctrlC7.waiting_cycles Direction.NORTH = 5 ∧
    (autoRound ctrlC7 0).1 = Direction.EAST ∧
    (autoRound ctrlC7 0).2.waiting_cycles Direction.NORTH = 0 := by
  have hsel := selectNextDirection_noforced (roundCyclesUpdate ctrlC7) 0 rfl
  refine ⟨rfl, ctrlC7_round_fst, ?_⟩
  simp only [autoRound, hsel, reset_waiting_time_cycles, ctrlC7_select,
    incCyclesNonSelected, updD, update_waiting_times_cycles, update_waiting_times_counts,
    roundCyclesUpdate_counts, roundCyclesUpdate_cycles]
  decide

/-- Closed instance of `C7_waiting_cycles` in the C7 scenario: the selected
direction (EAST) ends at 0, and SOUTH — neither current nor selected, no
vehicles — is incremented from 0 to 1. -/
theorem C7_waiting_cycles_witness :
    (autoRound ctrlC7 0).2.waiting_cycles (autoRound ctrlC7 0).1 = 0 ∧
    (autoRound ctrlC7 0).2.waiting_cycles Direction.SOUTH =
      ctrlC7.waiting_cycles Direction.SOUTH + 1 +
        (if 0 < ctrlC7.vehicle_counts Direction.SOUTH then 1 else 0) := by
  have h := C7_waiting_cycles ctrlC7 0 rfl
  refine ⟨h.1, (h.2.1 Direction.SOUTH (by decide) ?_).1⟩
  rw [ctrlC7_round_fst]
  decide
